import Mathlib

/-!
Shallow embedding of `src/egui/src/data/input.rs` (the per-frame input
contract of the egui core): the `RawInput` aggregate, its `Default`
instance, the `take` state-transfer operation, and the `Modifiers`,
`Key` and `Event` vocabulary. The auxiliary geometry types (`Vec2`,
`Pos2`, `Rect`) live in the repository's math module, which is not part
of the sources here; they are modelled from the spec. Floating-point
fields are embedded as exact rationals: no arithmetic is ever performed
on them in this core, they are only constructed, copied and compared.
-/

/-- Modelled from the spec: the 2D vector type of the repository's math
module (absent from the sources); two scalar coordinates, embedded as
exact rationals standing for the `f32` fields. -/
structure Vec2 where
  x : ℚ
  y : ℚ
  deriving DecidableEq, Repr

/-- Modelled from the spec: `Vec2::zero()`, the zero vector. -/
def Vec2.zero : Vec2 := ⟨0, 0⟩

/-- Modelled from the spec: the derived `Default` of `Vec2` is the zero
vector (the spec's "reset to their empty/zero defaults"). -/
def Vec2.defaultValue : Vec2 := Vec2.zero

/-- Modelled from the spec: a point in logical pixels (math module,
absent from the sources). -/
structure Pos2 where
  x : ℚ
  y : ℚ
  deriving DecidableEq, Repr

/-- Modelled from the spec: a rectangle given by position and size with
origin in the top left corner (`Rect::from_pos_size`), math module,
absent from the sources. -/
structure Rect where
  pos : Pos2
  size : Vec2
  deriving DecidableEq, Repr

/-- State of the modifier keys (`struct Modifiers` in the source): four
independent flags plus the platform-normalized `command` flag. -/
structure Modifiers where
  alt : Bool
  ctrl : Bool
  shift : Bool
  mac_cmd : Bool
  command : Bool
  deriving DecidableEq, Repr

/-- The derived `Default` of `Modifiers`: all flags false. -/
def Modifiers.defaultValue : Modifiers :=
  { alt := false, ctrl := false, shift := false,
    mac_cmd := false, command := false }

/-- Modelled from the spec: a host on a non-Mac platform sets `command`
to the same value as `ctrl` and leaves `mac_cmd` false (the documented
contract on the `Modifiers` fields; the struct itself only carries the
flags). -/
def Modifiers.nonMacNormalized (m : Modifiers) : Prop :=
  m.command = m.ctrl ∧ m.mac_cmd = false

/-- Modelled from the spec: a host on Mac sets `command` whenever one of
the Command keys is down, i.e. to the same value as `mac_cmd`. -/
def Modifiers.macNormalized (m : Modifiers) : Prop :=
  m.command = m.mac_cmd

instance (m : Modifiers) : Decidable m.nonMacNormalized := by
  unfold Modifiers.nonMacNormalized; infer_instance

instance (m : Modifiers) : Decidable m.macNormalized := by
  unfold Modifiers.macNormalized; infer_instance

/-- Keyboard keys (`enum Key` in the source), in declaration order. -/
inductive Key where
  | ArrowDown
  | ArrowLeft
  | ArrowRight
  | ArrowUp
  | Escape
  | Tab
  | Backspace
  | Enter
  | Space
  | Insert
  | Delete
  | Home
  | End
  | PageUp
  | PageDown
  | Num0
  | Num1
  | Num2
  | Num3
  | Num4
  | Num5
  | Num6
  | Num7
  | Num8
  | Num9
  | A
  | B
  | C
  | D
  | E
  | F
  | G
  | H
  | I
  | J
  | K
  | L
  | M
  | N
  | O
  | P
  | Q
  | R
  | S
  | T
  | U
  | V
  | W
  | X
  | Y
  | Z
  deriving DecidableEq, Repr, Fintype

/-- Discriminant of a `Key`, following the declaration order of the
source enum; Rust's derived `Ord` on a fieldless enum compares exactly
these discriminants. -/
def Key.idx : Key → Nat
  | .ArrowDown => 0
  | .ArrowLeft => 1
  | .ArrowRight => 2
  | .ArrowUp => 3
  | .Escape => 4
  | .Tab => 5
  | .Backspace => 6
  | .Enter => 7
  | .Space => 8
  | .Insert => 9
  | .Delete => 10
  | .Home => 11
  | .End => 12
  | .PageUp => 13
  | .PageDown => 14
  | .Num0 => 15
  | .Num1 => 16
  | .Num2 => 17
  | .Num3 => 18
  | .Num4 => 19
  | .Num5 => 20
  | .Num6 => 21
  | .Num7 => 22
  | .Num8 => 23
  | .Num9 => 24
  | .A => 25
  | .B => 26
  | .C => 27
  | .D => 28
  | .E => 29
  | .F => 30
  | .G => 31
  | .H => 32
  | .I => 33
  | .J => 34
  | .K => 35
  | .L => 36
  | .M => 37
  | .N => 38
  | .O => 39
  | .P => 40
  | .Q => 41
  | .R => 42
  | .S => 43
  | .T => 44
  | .U => 45
  | .V => 46
  | .W => 47
  | .X => 48
  | .Y => 49
  | .Z => 50

/-- The total order on `Key` induced by Rust's derived `Ord`
(declaration-order comparison of discriminants). -/
def Key.le (a b : Key) : Prop := a.idx ≤ b.idx

instance (a b : Key) : Decidable (Key.le a b) := by
  unfold Key.le; infer_instance

/-- An input event generated by the integration (`enum Event` in the
source). -/
inductive Event where
  | Copy
  | Cut
  | Text (s : String)
  | Key (key : Key) (pressed : Bool) (modifiers : Modifiers)
  deriving DecidableEq, Repr

/-- What the integration provides to egui at the start of each frame
(`struct RawInput` in the source), including the deprecated
`screen_size` field. -/
structure RawInput where
  mouse_down : Bool
  mouse_pos : Option Pos2
  scroll_delta : Vec2
  screen_size : Vec2
  screen_rect : Option Rect
  pixels_per_point : Option ℚ
  time : Option ℚ
  predicted_dt : ℚ
  modifiers : Modifiers
  events : List Event
  deriving DecidableEq, Repr

/-- `impl Default for RawInput`, field by field from the source. -/
def RawInput.defaultValue : RawInput :=
  { mouse_down := false
    mouse_pos := none
    scroll_delta := Vec2.zero
    screen_size := Vec2.defaultValue
    screen_rect := none
    pixels_per_point := none
    time := none
    predicted_dt := 1 / 60
    modifiers := Modifiers.defaultValue
    events := [] }

/-- `RawInput::take`, field by field from the source: the first
component is the returned aggregate, the second the state the source is
left in after the call. The two `std::mem::take` calls move the field
into the result and leave the field's default in the source. -/
def RawInput.take (self : RawInput) : RawInput × RawInput :=
  ({ mouse_down := self.mouse_down
     mouse_pos := self.mouse_pos
     scroll_delta := self.scroll_delta
     screen_size := self.screen_size
     screen_rect := self.screen_rect
     pixels_per_point := self.pixels_per_point
     time := self.time
     predicted_dt := self.predicted_dt
     modifiers := self.modifiers
     events := self.events },
   { self with
     scroll_delta := Vec2.defaultValue
     events := [] })

/-- A sample aggregate used by concrete instantiations: the default
aggregate with the given scroll delta and event list. -/
def RawInput.sample (d : Vec2) (es : List Event) : RawInput :=
  { RawInput.defaultValue with scroll_delta := d, events := es }

/-- C1: `take` moves the two volatile accumulator fields: the result
carries the pre-call `scroll_delta` and `events`, and afterwards the
source holds the zero vector and the empty event list. -/
theorem take_moves_volatile (a : RawInput) :
    (a.take).1.scroll_delta = a.scroll_delta ∧
    (a.take).1.events = a.events ∧
    (a.take).2.scroll_delta = Vec2.zero ∧
    (a.take).2.events = [] :=
  ⟨rfl, rfl, rfl, rfl⟩

/-- C2: `take` copies every steady-state field verbatim into the result
and leaves each of them unchanged in the source. -/
theorem take_copies_steady_state (a : RawInput) :
    (a.take).1.mouse_down = a.mouse_down ∧
    (a.take).1.mouse_pos = a.mouse_pos ∧
    (a.take).1.screen_rect = a.screen_rect ∧
    (a.take).1.pixels_per_point = a.pixels_per_point ∧
    (a.take).1.time = a.time ∧
    (a.take).1.predicted_dt = a.predicted_dt ∧
    (a.take).1.modifiers = a.modifiers ∧
    (a.take).2.mouse_down = a.mouse_down ∧
    (a.take).2.mouse_pos = a.mouse_pos ∧
    (a.take).2.screen_rect = a.screen_rect ∧
    (a.take).2.pixels_per_point = a.pixels_per_point ∧
    (a.take).2.time = a.time ∧
    (a.take).2.predicted_dt = a.predicted_dt ∧
    (a.take).2.modifiers = a.modifiers :=
  ⟨rfl, rfl, rfl, rfl, rfl, rfl, rfl, rfl, rfl, rfl, rfl, rfl, rfl, rfl⟩

/-- C3: the event sequence yielded by `take` is the pre-call sequence,
element for element and in order; in particular the sequence
[Key A pressed, Text "x", Cut] is yielded exactly as it stands. -/
theorem take_preserves_event_order :
    (∀ a : RawInput, (a.take).1.events = a.events) ∧
    (RawInput.sample Vec2.zero
        [Event.Key Key.A true Modifiers.defaultValue,
         Event.Text "x", Event.Cut]).take.1.events =
      [Event.Key Key.A true Modifiers.defaultValue,
       Event.Text "x", Event.Cut] :=
  ⟨fun _ => rfl, rfl⟩

/-- C4: draining twice is idempotent: whatever the aggregate held before
the first call, the second `take` yields an empty event sequence and a
zero scroll delta. -/
theorem take_twice_drains (a : RawInput) :
    ((a.take).2.take).1.events = [] ∧
    ((a.take).2.take).1.scroll_delta = Vec2.zero :=
  ⟨rfl, rfl⟩

/-- C5: the default-constructed aggregate has `mouse_down` false, no
mouse position, zero scroll delta, no screen rect, no time, a predicted
frame delta of 1/60, all-false modifiers and an empty event list. -/
theorem default_raw_input_fields :
    RawInput.defaultValue.mouse_down = false ∧
    RawInput.defaultValue.mouse_pos = none ∧
    RawInput.defaultValue.scroll_delta = Vec2.zero ∧
    RawInput.defaultValue.screen_rect = none ∧
    RawInput.defaultValue.time = none ∧
    RawInput.defaultValue.predicted_dt = 1 / 60 ∧
    RawInput.defaultValue.modifiers =
      { alt := false, ctrl := false, shift := false,
        mac_cmd := false, command := false } ∧
    RawInput.defaultValue.events = [] :=
  ⟨rfl, rfl, rfl, rfl, rfl, rfl, rfl, rfl⟩

/-- C6: under the documented platform contract, `command` is true when
`ctrl` is held on a non-Mac-normalized host, and when `mac_cmd` is held
on a Mac-normalized host: on non-Mac hosts `command` equals `ctrl`, on
Mac hosts `command` equals `mac_cmd`. -/
theorem modifiers_command_normalization (m : Modifiers) :
    (m.nonMacNormalized → m.ctrl = true → m.mac_cmd = false →
      m.command = true) ∧
    (m.macNormalized → m.mac_cmd = true → m.ctrl = false →
      m.command = true) ∧
    (m.nonMacNormalized → m.command = m.ctrl) ∧
    (m.macNormalized → m.command = m.mac_cmd) :=
  ⟨fun h hc _ => h.1.trans hc,
   fun h hc _ => h.trans hc,
   fun h => h.1,
   fun h => h⟩

/-- C6 witness: the scenario modifiers ctrl-held on a non-Mac host and
cmd-held on a Mac host both present `command = true`. -/
theorem modifiers_command_normalization_witness :
    (Modifiers.command
      { alt := false, ctrl := true, shift := false,
        mac_cmd := false, command := true } = true) ∧
    (Modifiers.command
      { alt := false, ctrl := false, shift := false,
        mac_cmd := true, command := true } = true) :=
  ⟨(modifiers_command_normalization
      { alt := false, ctrl := true, shift := false,
        mac_cmd := false, command := true }).1
      (by decide) (by decide) (by decide),
   ((modifiers_command_normalization
      { alt := false, ctrl := false, shift := false,
        mac_cmd := true, command := true }).2.1
      (by decide) (by decide) (by decide))⟩

/-- C7: `take` is a total function: every well-formed aggregate is
mapped to a result and post-state, with no failure branch (the embedding
returns a plain pair, not an `Option` or `Except`). -/
theorem take_total (a : RawInput) :
    ∃ p : RawInput × RawInput, a.take = p :=
  ⟨a.take, rfl⟩

/-- C7 witness: `take` at the default aggregate yields a result. -/
theorem take_total_witness :
    ∃ p : RawInput × RawInput, RawInput.defaultValue.take = p :=
  take_total RawInput.defaultValue

/-- The discriminant map `Key.idx` is injective: distinct keys of the
enum carry distinct discriminants. -/
theorem key_idx_injective : ∀ {a b : Key}, a.idx = b.idx → a = b := by
  have h : ∀ a b : Key, a.idx = b.idx → a = b := by decide
  intro a b
  exact h a b

/-- C8: `Key` has decidable equality (reflexive, symmetric, transitive,
and decided for every pair) and `Key.le` (the derived declaration-order
comparison) is a total order: total, antisymmetric and transitive. -/
theorem key_eq_and_order (a b c : Key) :
    (a = a) ∧ (a = b → b = a) ∧ (a = b → b = c → a = c) ∧
    (a = b ∨ a ≠ b) ∧
    (Key.le a b ∨ Key.le b a) ∧
    (Key.le a b → Key.le b a → a = b) ∧
    (Key.le a b → Key.le b c → Key.le a c) :=
  ⟨rfl,
   fun h => h.symm,
   fun h h' => h.trans h',
   Decidable.em (a = b),
   Nat.le_total a.idx b.idx,
   fun h h' => key_idx_injective (Nat.le_antisymm h h'),
   fun h h' => Nat.le_trans h h'⟩

/-- C8 witness: the order and equality facts at the concrete keys A, B. -/
theorem key_eq_and_order_witness : Key.le Key.A Key.B :=
  (key_eq_and_order Key.A Key.B Key.B).2.2.2.2.2.2 (by decide) (by decide)

/-- C9: the deprecated `screen_size` field is carried by the aggregate,
copied verbatim by `take` into the result, left unchanged in the source,
and defaulted to the zero vector. -/
theorem screen_size_steady :
    (∀ a : RawInput, (a.take).1.screen_size = a.screen_size ∧
      (a.take).2.screen_size = a.screen_size) ∧
    RawInput.defaultValue.screen_size = Vec2.zero :=
  ⟨fun _ => ⟨rfl, rfl⟩, rfl⟩

/-- C10: `take` is deterministic: field-for-field equal aggregates give
equal results and equal post-call states. -/
theorem take_deterministic (a b : RawInput) (h : a = b) :
    a.take = b.take :=
  congrArg RawInput.take h

/-- C10 witness: determinism at the default aggregate. -/
theorem take_deterministic_witness :
    RawInput.defaultValue.take = RawInput.defaultValue.take :=
  take_deterministic RawInput.defaultValue RawInput.defaultValue rfl
